import Mathlib

/-!
Verification of the chat-buffer / shadowban-detector core:
shallow embedding of `src/url_validator.py` and `src/chat_engine.py`
(YouTubeChatBuffer) in Lean 4, with theorems about the embedded code.

Conventions of the embedding:
* Python strings are `String` (a wrapper around `List Char`); byte-level
  details do not matter for these functions.
* Wall-clock instants (`datetime.now()`) are modelled as `Nat` seconds,
  passed in explicitly where the code reads the clock.
* The external feed collaborator (`pytchat`) is modelled by explicit
  outcome parameters: each call site that can observe the network takes
  the observed outcome as an argument.
* Exceptions are modelled by outcome constructors / `Except`; a Python
  function that never lets an exception escape becomes a total Lean
  function.
-/

/-! ### `url_validator.parse_youtube_url` -/

/-- Character class `[A-Za-z0-9_-]` used by every video-id pattern in
`parse_youtube_url` (`url_validator.py` lines 38, 42, 47). -/
def isIdChar (c : Char) : Bool :=
  c.isAlpha || c.isDigit || c == '_' || c == '-'

/-- Python `str.strip()` on the character list: drop leading and trailing
whitespace (`url_validator.py` line 35). -/
def pyStrip (cs : List Char) : List Char :=
  ((cs.dropWhile Char.isWhitespace).reverse.dropWhile Char.isWhitespace).reverse

/-- Match a literal character sequence at the head of `cs`; on success
return the remainder.  (The regex literals `youtube\.com/watch\?v=` and
`youtu\.be/` are plain character sequences.) -/
def matchLit : List Char → List Char → Option (List Char)
  | [], cs => some cs
  | _ :: _, [] => none
  | l :: ls, c :: cs => if l == c then matchLit ls cs else none

/-- The capture group `([A-Za-z0-9_-]{11})`: exactly eleven id characters
taken greedily from the front of `cs`; `none` when fewer than eleven
id characters follow. -/
def grab11 (cs : List Char) : Option (List Char) :=
  if (cs.take 11).length = 11 && (cs.take 11).all isIdChar then
    some (cs.take 11)
  else none

/-- `re.search` for the pattern `<lit>([A-Za-z0-9_-]{11})`: try every start
position left to right, succeeding at the first position where the literal
matches and eleven id characters follow. -/
def searchPat (lit : List Char) : List Char → Option (List Char)
  | [] => (matchLit lit []).bind grab11
  | c :: cs =>
    match (matchLit lit (c :: cs)).bind grab11 with
    | some id => some id
    | none => searchPat lit cs

/-- The three patterns of `parse_youtube_url` applied to the stripped
input (`url_validator.py` lines 37-51): (1) a bare 11-character id,
(2) `youtube.com/watch?v=ID`, (3) `youtu.be/ID`; otherwise `none`. -/
def parseStripped (s : List Char) : Option String :=
  if s.length = 11 && s.all isIdChar then some (String.mk s)
  else
    match searchPat "youtube.com/watch?v=".data s with
    | some id => some (String.mk id)
    | none =>
      match searchPat "youtu.be/".data s with
      | some id => some (String.mk id)
      | none => none

/-- `url_validator.parse_youtube_url` (lines 16-51): the `if not url`
guard (emptiness test), then `url.strip()` followed by the three
patterns. -/
def parse_youtube_url (url : String) : Option String :=
  if url.isEmpty then none
  else parseStripped (pyStrip url.data)

/-! Basic facts about the parser pieces. -/

theorem grab11_shape {cs r : List Char} (h : grab11 cs = some r) :
    r.length = 11 ∧ r.all isIdChar = true := by
  unfold grab11 at h
  split at h
  case isTrue hc =>
    have hr : cs.take 11 = r := Option.some.inj h
    subst hr
    simpa using hc
  case isFalse hc => cases h

theorem bind_grab11_shape {o : Option (List Char)} {r : List Char}
    (h : o.bind grab11 = some r) : r.length = 11 ∧ r.all isIdChar = true := by
  cases o with
  | none => cases h
  | some rest => exact grab11_shape h

theorem searchPat_shape {lit cs r : List Char} (h : searchPat lit cs = some r) :
    r.length = 11 ∧ r.all isIdChar = true := by
  induction cs with
  | nil =>
    unfold searchPat at h
    exact bind_grab11_shape h
  | cons c cs ih =>
    unfold searchPat at h
    cases hm : (matchLit lit (c :: cs)).bind grab11 with
    | some id =>
      rw [hm] at h
      have hr : id = r := Option.some.inj h
      subst hr
      exact bind_grab11_shape hm
    | none =>
      rw [hm] at h
      exact ih h

/-! ### `chat_engine.YouTubeChatBuffer`: data model -/

/-- A buffered chat message (`chat_engine.py` lines 93-97): display name
with a single leading `@` stripped, raw text, and the capture-time
instant assigned by the engine. -/
structure ChatMessage where
  author : String
  message : String
  timestamp : Nat
deriving DecidableEq, Repr

/-- `deque(maxlen=200)` (`chat_engine.py` line 27). -/
def bufMaxlen : Nat := 200

/-- One `deque.append` on a `deque(maxlen=200)`: when the deque is full the
oldest (leftmost) element is evicted before the new one is appended
(`chat_engine.py` line 101). -/
def bufAppend (buf : List ChatMessage) (m : ChatMessage) : List ChatMessage :=
  if bufMaxlen ≤ buf.length then buf.tail ++ [m] else buf ++ [m]

/-- Appending a whole sequence of messages, oldest first. -/
def bufAppendAll (buf : List ChatMessage) (ms : List ChatMessage) : List ChatMessage :=
  ms.foldl bufAppend buf

/-- Strip a single leading `@` from the author display name
(`chat_engine.py` lines 89-91). -/
def stripAt (name : String) : String :=
  match name.data with
  | '@' :: t => String.mk t
  | _ => name

/-- The observable state of one `YouTubeChatBuffer` instance
(`chat_engine.py` lines 18-33).  `workerAlive` models
`worker_thread.is_alive()`; `workerStarted` records whether line 62
(`worker_thread.start()`) ever ran on this instance. -/
structure EngineState where
  videoId : String
  chat : Option Bool
  buffer : List ChatMessage
  workerStarted : Bool
  workerAlive : Bool
  stopFlag : Bool
  streamEndedFlag : Bool
  errorMessage : Option String
  firstMessageTime : Option Nat
deriving DecidableEq, Repr

/-- `YouTubeChatBuffer.__init__` (`chat_engine.py` lines 18-33). -/
def mkEngine (videoId : String) : EngineState :=
  { videoId := videoId
    chat := none
    buffer := []
    workerStarted := false
    workerAlive := false
    stopFlag := false
    streamEndedFlag := false
    errorMessage := none
    firstMessageTime := none }

/-- One message append inside `_buffer_loop` (`chat_engine.py` lines
86-103): normalize the author, stamp the capture time, append under the
buffer lock and latch `first_message_time` on the first append. -/
def engineAppend (s : EngineState) (authorName msgText : String) (now : Nat) :
    EngineState :=
  { s with
    buffer := bufAppend s.buffer
      { author := stripAt authorName, message := msgText, timestamp := now }
    firstMessageTime :=
      match s.firstMessageTime with
      | none => some now
      | some t => some t }

/-- Python `needle in hay` on strings: `needle` occurs in `hay` as a
contiguous substring. -/
def hasSubstr (needle : List Char) : List Char → Bool
  | [] => needle.isEmpty
  | c :: t => needle.isPrefixOf (c :: t) || hasSubstr needle t

/-- `YouTubeChatBuffer.search_buffer` (`chat_engine.py` lines 133-155):
case-sensitive substring match against the message text, in buffer
order. -/
def search_buffer (s : EngineState) (identifier : String) : List ChatMessage :=
  s.buffer.filter fun msg => hasSubstr identifier.data msg.message.data

/-- Python `str.lower()`: lower-case every character.  (`Char.toLower`
lowers the ASCII range, which covers all letters these claims and the
code's own tests exercise.) -/
def lowerStr (s : String) : String :=
  String.mk (s.data.map Char.toLower)

/-- `YouTubeChatBuffer.search_by_username` (`chat_engine.py` lines
157-180): case-insensitive exact match against the author, in buffer
order. -/
def search_by_username (s : EngineState) (username : String) : List ChatMessage :=
  s.buffer.filter fun msg => lowerStr msg.author == lowerStr username

/-- Result of `get_buffer_stats`. -/
structure BufferStats where
  messageCount : Nat
  timeSpanSeconds : Nat
deriving DecidableEq, Repr

/-- `YouTubeChatBuffer.get_buffer_stats` (`chat_engine.py` lines 182-200);
`now` is the clock value read at line 193. -/
def get_buffer_stats (s : EngineState) (now : Nat) : BufferStats :=
  { messageCount := s.buffer.length
    timeSpanSeconds :=
      match s.firstMessageTime with
      | some t => now - t
      | none => 0 }

/-- `YouTubeChatBuffer.stop_buffering` (`chat_engine.py` lines 202-218).
`joinCompletes` tells whether the worker thread exits within the 5-second
`join` timeout; `releaseResult` is the outcome of `chat.terminate()`,
whose failure the bare `except: pass` swallows.  The function is total:
no exception escapes. -/
def stop_buffering (s : EngineState) (joinCompletes : Bool)
    (releaseResult : Except String Unit) : EngineState :=
  let s1 := { s with stopFlag := true }
  let s2 := { s1 with workerAlive := if joinCompletes then false else s1.workerAlive }
  match releaseResult with
  | .ok _ => s2
  | .error _ => s2

/-- Outcome of obtaining / probing the feed connection inside
`start_buffering`: a connection whose `is_alive()` answers `alive`, the
`InvalidVideoIdException`, or any other exception with message `msg`. -/
inductive ConnResult where
  | conn (alive : Bool)
  | invalidId
  | failure (msg : String)
deriving DecidableEq, Repr

/-- `YouTubeChatBuffer.start_buffering` (`chat_engine.py` lines 35-71):
returns `(return value, new state)`.  On a dead stream it fails fast
without starting the worker; exceptions are converted to `false` plus a
message, never re-raised. -/
def start_buffering (s : EngineState) (co : ConnResult) : Bool × EngineState :=
  match co with
  | .conn alive =>
    let s1 := { s with chat := some alive }
    if alive then
      (true, { s1 with
        stopFlag := false
        streamEndedFlag := false
        workerStarted := true
        workerAlive := true })
    else
      (false, { s1 with errorMessage := some "Stream is not live" })
  | .invalidId => (false, { s with errorMessage := some "Invalid video ID" })
  | .failure m =>
    (false, { s with errorMessage := some ("Failed to connect: " ++ m) })

/-! ### `_buffer_loop` retry / backoff state machine -/

/-- The loop-local control state of `_buffer_loop` (`chat_engine.py` lines
78-80) together with the instance fields it writes: `attempts` is
`reconnect_attempts`, `backoff` is `backoff_time` in whole seconds,
`errorMsg` is `self.error_message`, and `running` is false once the loop
has exited. -/
structure LoopState where
  attempts : Nat
  backoff : Nat
  errorMsg : Option String
  running : Bool
deriving DecidableEq, Repr

/-- Loop state on entry to the `while` loop (`chat_engine.py` lines 78-80). -/
def initLoop : LoopState :=
  { attempts := 0, backoff := 1, errorMsg := none, running := true }

/-- `max_reconnect_attempts = 3` (`chat_engine.py` line 79). -/
def maxReconnectAttempts : Nat := 3

/-- What one loop iteration observes: the fetch over the live connection
succeeds, or it raises an exception (`chat_engine.py` lines 83-131). -/
inductive LoopEvent where
  | fetchOk
  | fetchErr
deriving DecidableEq, Repr

/-- One iteration of `_buffer_loop`, returning the new state and the
backoff sleep performed, if any.  A successful iteration resets the
counter and backoff (lines 105-107); an exception increments the counter
and either sleeps `backoff` then doubles it (lines 121-124) or, once the
counter exceeds `max_reconnect_attempts`, sets the final message and
breaks (lines 128-131).  A loop that has exited stays exited. -/
def loopStep (s : LoopState) (e : LoopEvent) : LoopState × Option Nat :=
  if s.running then
    match e with
    | .fetchOk => ({ s with attempts := 0, backoff := 1 }, none)
    | .fetchErr =>
      if s.attempts + 1 ≤ maxReconnectAttempts then
        ({ s with
            attempts := s.attempts + 1
            errorMsg := some ("Connection error, retrying... (" ++
              toString (s.attempts + 1) ++ "/" ++ toString maxReconnectAttempts ++ ")")
            backoff := s.backoff * 2 },
         some s.backoff)
      else
        ({ s with
            attempts := s.attempts + 1
            errorMsg := some ("Connection lost after " ++
              toString maxReconnectAttempts ++ " attempts")
            running := false },
         none)
  else (s, none)

/-- Run the loop over a sequence of observed iteration events. -/
def runLoop (s : LoopState) : List LoopEvent → LoopState
  | [] => s
  | e :: es => runLoop (loopStep s e).1 es

/-- A loop state the code can actually be in: reached from `initLoop` by
some sequence of iteration events. -/
def LoopReachable (s : LoopState) : Prop :=
  ∃ es : List LoopEvent, runLoop initLoop es = s

/-- Invariant tying `backoff_time` to `reconnect_attempts`: while the loop
is running, `backoff = 2 ^ attempts` and at most 3 attempts have been
consumed. -/
def LoopInv (s : LoopState) : Prop :=
  s.running = true → s.backoff = 2 ^ s.attempts ∧ s.attempts ≤ maxReconnectAttempts

theorem loopStep_inv {s : LoopState} (h : LoopInv s) (e : LoopEvent) :
    LoopInv (loopStep s e).1 := by
  unfold LoopInv
  by_cases hr : s.running = true
  · rcases h hr with ⟨hb, ha⟩
    cases e with
    | fetchOk => simp [loopStep, hr, maxReconnectAttempts]
    | fetchErr =>
      by_cases hle : s.attempts + 1 ≤ maxReconnectAttempts
      · simp only [loopStep, hr, if_true, if_pos hle]
        intro _
        constructor
        · simp [hb, pow_succ, Nat.mul_comm]
        · exact hle
      · simp [loopStep, hr, hle]
  · cases e <;> simpa [loopStep, hr] using h

theorem runLoop_inv (es : List LoopEvent) :
    ∀ s : LoopState, LoopInv s → LoopInv (runLoop s es) := by
  induction es with
  | nil => intro s h; simpa [runLoop] using h
  | cons e es ih =>
    intro s h
    exact ih _ (loopStep_inv h e)

theorem initLoop_inv : LoopInv initLoop := by
  intro _
  constructor <;> simp [initLoop, maxReconnectAttempts]

theorem reachable_inv {s : LoopState} (h : LoopReachable s) : LoopInv s := by
  rcases h with ⟨es, hes⟩
  have := runLoop_inv es initLoop initLoop_inv
  rwa [hes] at this

/-! ### `url_validator.validate_livestream` and its cache -/

/-- The dictionary value returned by `validate_livestream`. -/
structure VResult where
  valid : Bool
  live : Bool
  error : Option String
deriving DecidableEq, Repr

/-- The outcome of `pytchat.create(video_id).is_alive()` as observed by
`validate_livestream` (`url_validator.py` lines 86-124): the connection
answers alive / not alive, raises `InvalidVideoIdException`, or raises
some other exception carrying message `msg`. -/
inductive FetchOutcome where
  | live
  | notLive
  | invalidId
  | err (msg : String)
deriving DecidableEq, Repr

/-- How `validate_livestream` classifies one collaborator outcome into a
result (`url_validator.py` lines 89-124), including the documented
signal/main-thread special case at lines 110-118. -/
def classifyOutcome : FetchOutcome → VResult
  | .live => { valid := true, live := true, error := none }
  | .notLive =>
    { valid := true, live := false, error := some "Stream is not currently live" }
  | .invalidId =>
    { valid := false, live := false, error := some "Invalid video ID" }
  | .err m =>
    if hasSubstr "signal".data m.toLower.data &&
       hasSubstr "main thread".data m.toLower.data then
      { valid := true, live := true, error := none }
    else
      { valid := false, live := false, error := some ("Validation error: " ++ m) }

/-- The module-level `_validation_cache` dict: identifier to
(result, captured-at time).  Insertion shadows earlier entries. -/
def VCache := List (String × VResult × Nat)

/-- Dictionary lookup `_validation_cache[video_id]`. -/
def cacheLookup (c : VCache) (k : String) : Option (VResult × Nat) :=
  match List.find? (fun e : String × VResult × Nat => e.1 == k) c with
  | some e => some e.2
  | none => none

/-- Dictionary store `_validation_cache[video_id] = (result, now)`. -/
def cacheStore (c : VCache) (k : String) (v : VResult × Nat) : VCache :=
  (k, v) :: c

/-- `_cache_timeout = 60` (`url_validator.py` line 13). -/
def cacheTimeout : Nat := 60

/-- `url_validator.validate_livestream` (lines 54-137), returning
`(result, cache after the call, whether the collaborator was invoked)`.
`collab` is the external collaborator: what creating and probing a
connection for a given identifier would observe.  `now` is the clock
value read at line 78. -/
def validate_livestream (collab : String → FetchOutcome) (cache : VCache)
    (now : Nat) (videoId : String) : VResult × VCache × Bool :=
  if videoId.isEmpty then
    ({ valid := false, live := false, error := some "No video ID provided" },
     cache, false)
  else
    match cacheLookup cache videoId with
    | some (r, t) =>
      if now - t < cacheTimeout then (r, cache, false)
      else
        let result := classifyOutcome (collab videoId)
        (result, cacheStore cache videoId (result, now), true)
    | none =>
      let result := classifyOutcome (collab videoId)
      (result, cacheStore cache videoId (result, now), true)

/-- `url_validator.clear_cache` (lines 140-145). -/
def clear_cache (_ : VCache) : VCache := []

/-! ### Claims C5 and C10: the URL parser -/

theorem parseStripped_shape {s : List Char} {id : String}
    (h : parseStripped s = some id) :
    id.length = 11 ∧ id.data.all isIdChar = true := by
  unfold parseStripped at h
  split at h
  case isTrue hc =>
    have hid : String.mk s = id := Option.some.inj h
    subst hid
    simpa using hc
  case isFalse hc =>
    cases h1 : searchPat "youtube.com/watch?v=".data s with
    | some id1 =>
      rw [h1] at h
      have hid : String.mk id1 = id := Option.some.inj h
      subst hid
      simpa using searchPat_shape h1
    | none =>
      rw [h1] at h
      cases h2 : searchPat "youtu.be/".data s with
      | some id2 =>
        rw [h2] at h
        have hid : String.mk id2 = id := Option.some.inj h
        subst hid
        simpa using searchPat_shape h2
      | none =>
        rw [h2] at h
        cases h

/-- C10: for every input string, `parse_youtube_url` returns either `none`
or a string of exactly 11 characters, each drawn from letters, digits,
underscore and hyphen — no return value of any other shape is possible. -/
theorem C10_parse_result_shape (url id : String)
    (h : parse_youtube_url url = some id) :
    id.length = 11 ∧ id.data.all isIdChar = true := by
  unfold parse_youtube_url at h
  split at h
  · cases h
  · exact parseStripped_shape h

theorem C10_parse_result_shape_witness :
    ("dQw4w9WgXcQ" : String).length = 11 ∧
      ("dQw4w9WgXcQ" : String).data.all isIdChar = true :=
  C10_parse_result_shape "https://youtu.be/dQw4w9WgXcQ" "dQw4w9WgXcQ" (by decide)

/-- C5: `parse_youtube_url` returns the trimmed input verbatim when it is
exactly 11 characters drawn from letters, digits, underscore and hyphen;
and on the spec's concrete examples it yields `dQw4w9WgXcQ` for the
watch-URL, short-link and bare-id forms, and `none` for
`https://www.google.com` and `abc123`. -/
theorem C5_parse_cases :
    (∀ url : String, (pyStrip url.data).length = 11 →
      (pyStrip url.data).all isIdChar = true →
      parse_youtube_url url = some (String.mk (pyStrip url.data))) ∧
    parse_youtube_url "https://www.youtube.com/watch?v=dQw4w9WgXcQ" =
      some "dQw4w9WgXcQ" ∧
    parse_youtube_url "https://youtu.be/dQw4w9WgXcQ" = some "dQw4w9WgXcQ" ∧
    parse_youtube_url "dQw4w9WgXcQ" = some "dQw4w9WgXcQ" ∧
    parse_youtube_url "https://www.google.com" = none ∧
    parse_youtube_url "abc123" = none := by
  refine ⟨?_, by decide, by decide, by decide, by decide, by decide⟩
  intro url h1 h2
  have hne : url.isEmpty = false := by
    cases he : url.isEmpty with
    | false => rfl
    | true =>
      have : url = "" := (String.isEmpty_iff url).mp he
      subst this
      exact absurd h1 (by decide)
  unfold parse_youtube_url
  rw [hne]
  simp only [Bool.false_eq_true, if_false]
  unfold parseStripped
  rw [if_pos (by simp [h1, h2])]

theorem C5_parse_cases_witness :
    parse_youtube_url "  dQw4w9WgXcQ  " =
      some (String.mk (pyStrip "  dQw4w9WgXcQ  ".data)) :=
  C5_parse_cases.1 "  dQw4w9WgXcQ  " (by decide) (by decide)

/-! ### Claim C1: the buffer is bounded and evicts oldest-first -/

theorem bufAppend_length_le {buf : List ChatMessage} (m : ChatMessage)
    (h : buf.length ≤ bufMaxlen) : (bufAppend buf m).length ≤ bufMaxlen := by
  have hb : bufMaxlen = 200 := rfl
  unfold bufAppend
  split
  case isTrue hf =>
    simp only [List.length_append, List.length_tail, List.length_cons,
      List.length_nil]
    omega
  case isFalse hf =>
    simp only [List.length_append, List.length_cons, List.length_nil]
    omega

theorem bufAppendAll_eq (ms : List ChatMessage) :
    ∀ buf : List ChatMessage, buf.length ≤ bufMaxlen →
      bufAppendAll buf ms = (buf ++ ms).drop (buf.length + ms.length - bufMaxlen) := by
  induction ms with
  | nil =>
    intro buf h
    have hb : bufMaxlen = 200 := rfl
    have hz : buf.length - bufMaxlen = 0 := by omega
    simp [bufAppendAll, hz]
  | cons m ms ih =>
    intro buf h
    have hstep : bufAppendAll buf (m :: ms) = bufAppendAll (bufAppend buf m) ms := rfl
    have hb : bufMaxlen = 200 := rfl
    rw [hstep, ih _ (bufAppend_length_le m h)]
    by_cases hf : bufMaxlen ≤ buf.length
    · have h200 : buf.length = bufMaxlen := le_antisymm h hf
      have hpos : 1 ≤ buf.length := by omega
      unfold bufAppend
      rw [if_pos hf]
      have hlen : (buf.tail ++ [m]).length = bufMaxlen := by
        simp only [List.length_append, List.length_tail, List.length_cons,
          List.length_nil]
        omega
      rw [hlen]
      have hda : buf.tail ++ [m] ++ ms = (buf ++ m :: ms).drop 1 := by
        rw [List.drop_append_of_le_length hpos, List.drop_one, List.append_assoc,
          List.singleton_append]
      rw [hda, List.drop_drop]
      have harith : bufMaxlen + ms.length - bufMaxlen = ms.length := by omega
      have harith2 : buf.length + (m :: ms).length - bufMaxlen = 1 + ms.length := by
        simp only [List.length_cons]
        omega
      rw [harith, harith2]
    · unfold bufAppend
      rw [if_neg hf]
      have hlen : (buf ++ [m]).length = buf.length + 1 := by simp
      rw [hlen, List.append_assoc, List.singleton_append]
      have harith : buf.length + 1 + ms.length - bufMaxlen =
          buf.length + (m :: ms).length - bufMaxlen := by
        simp only [List.length_cons]
        omega
      rw [harith]

/-- C1: appending `N` messages to the (initially empty) 200-capacity
buffer keeps all `N` in insertion order when `N ≤ 200` — and
`get_buffer_stats` then reports `messageCount = N` — while for `N > 200`
the buffer holds exactly the most recent 200 in insertion order (oldest
evicted first); moreover no single append ever grows a within-bounds
buffer past 200. -/
theorem C1_buffer_bounded (ms : List ChatMessage) :
    (ms.length ≤ 200 →
      bufAppendAll [] ms = ms ∧
      (∀ e : EngineState, ∀ now : Nat, e.buffer = bufAppendAll [] ms →
        (get_buffer_stats e now).messageCount = ms.length)) ∧
    (200 < ms.length →
      (bufAppendAll [] ms).length = 200 ∧
      bufAppendAll [] ms = ms.drop (ms.length - 200)) ∧
    (∀ buf : List ChatMessage, ∀ m : ChatMessage,
      buf.length ≤ 200 → (bufAppend buf m).length ≤ 200) := by
  have hkey : bufAppendAll [] ms = ms.drop (ms.length - 200) := by
    have := bufAppendAll_eq ms [] (by simp [bufMaxlen])
    simpa [bufMaxlen] using this
  refine ⟨?_, ?_, ?_⟩
  · intro hle
    have hz : ms.length - 200 = 0 := by omega
    have hall : bufAppendAll [] ms = ms := by rw [hkey, hz, List.drop_zero]
    refine ⟨hall, ?_⟩
    intro e now he
    simp [get_buffer_stats, he, hall]
  · intro hgt
    refine ⟨?_, hkey⟩
    rw [hkey, List.length_drop]
    omega
  · intro buf m h
    exact bufAppend_length_le m (by simpa [bufMaxlen] using h)

theorem C1_buffer_bounded_witness :
    bufAppendAll []
        (List.replicate 3 ({ author := "u", message := "m", timestamp := 0 } : ChatMessage)) =
      List.replicate 3 ({ author := "u", message := "m", timestamp := 0 } : ChatMessage) ∧
    (bufAppendAll []
        (List.replicate 201 ({ author := "u", message := "m", timestamp := 0 } : ChatMessage))).length = 200 :=
  ⟨((C1_buffer_bounded _).1 (by simp only [List.length_replicate]; omega)).1,
   ((C1_buffer_bounded _).2.1 (by simp only [List.length_replicate]; omega)).1⟩

/-! ### Claims C2 and C3: the two search operations -/

theorem isPrefixOf_iff_exists (l₁ l₂ : List Char) :
    l₁.isPrefixOf l₂ = true ↔ ∃ t, l₁ ++ t = l₂ := by
  induction l₁ generalizing l₂ with
  | nil => simp [List.isPrefixOf]
  | cons a as ih =>
    cases l₂ with
    | nil => simp [List.isPrefixOf]
    | cons b bs =>
      simp only [List.isPrefixOf, Bool.and_eq_true, beq_iff_eq]
      constructor
      · rintro ⟨hab, h⟩
        rcases (ih bs).mp h with ⟨t, ht⟩
        exact ⟨t, by simp [hab, ht]⟩
      · rintro ⟨t, ht⟩
        have h1 : a = b ∧ as ++ t = bs := by simpa using ht
        exact ⟨h1.1, (ih bs).mpr ⟨t, h1.2⟩⟩

theorem hasSubstr_iff (needle hay : List Char) :
    hasSubstr needle hay = true ↔
      ∃ pre post : List Char, hay = pre ++ needle ++ post := by
  induction hay with
  | nil =>
    constructor
    · intro h
      have hn : needle = [] := by
        simpa [hasSubstr, List.isEmpty_iff] using h
      exact ⟨[], [], by simp [hn]⟩
    · rintro ⟨pre, post, h⟩
      have hn : needle = [] := by
        rcases List.append_eq_nil.mp h.symm with ⟨h1, -⟩
        rcases List.append_eq_nil.mp h1 with ⟨-, h2⟩
        exact h2
      simp [hasSubstr, hn]
  | cons c t ih =>
    simp only [hasSubstr, Bool.or_eq_true]
    constructor
    · rintro (hp | hs)
      · rcases (isPrefixOf_iff_exists needle (c :: t)).mp hp with ⟨post, hpost⟩
        exact ⟨[], post, by simp [hpost]⟩
      · rcases ih.mp hs with ⟨pre, post, h⟩
        exact ⟨c :: pre, post, by simp [h]⟩
    · rintro ⟨pre, post, h⟩
      cases pre with
      | nil =>
        left
        exact (isPrefixOf_iff_exists needle (c :: t)).mpr ⟨post, by simpa using h.symm⟩
      | cons p ps =>
        right
        have h2 : c = p ∧ t = ps ++ needle ++ post := by simpa using h
        exact ih.mpr ⟨ps, post, h2.2⟩

/-- C2: `search_by_username` returns exactly the buffered messages whose
author equals the searched name up to letter case, in buffer order, and
after appending a message authored `TestUser` the searches `testuser` and
`TESTUSER` each yield exactly that one match. -/
theorem C2_search_by_username :
    (∀ (s : EngineState) (username : String) (m : ChatMessage),
      m ∈ search_by_username s username ↔
        m ∈ s.buffer ∧ lowerStr m.author = lowerStr username) ∧
    (∀ (s : EngineState) (username : String),
      (search_by_username s username).Sublist s.buffer) ∧
    search_by_username (engineAppend (mkEngine "v") "TestUser" "hi" 0) "testuser" =
      [{ author := "TestUser", message := "hi", timestamp := 0 }] ∧
    search_by_username (engineAppend (mkEngine "v") "TestUser" "hi" 0) "TESTUSER" =
      [{ author := "TestUser", message := "hi", timestamp := 0 }] := by
  refine ⟨?_, ?_, by decide, by decide⟩
  · intro s u m
    simp [search_by_username, List.mem_filter]
  · intro s u
    exact List.filter_sublist _

theorem C2_search_by_username_witness :
    ({ author := "TestUser", message := "hi", timestamp := 0 } : ChatMessage) ∈
      search_by_username (engineAppend (mkEngine "v") "TestUser" "hi" 0) "testuser" :=
  (C2_search_by_username.1 (engineAppend (mkEngine "v") "TestUser" "hi" 0) "testuser"
      { author := "TestUser", message := "hi", timestamp := 0 }).mpr
    ⟨by decide, by decide⟩

/-- C3: `search_buffer` returns exactly the buffered messages whose text
contains the needle as a contiguous (case-sensitive) substring, in buffer
order; after appending a message with text `Hello World`, searching
`world` yields no match and searching `World` yields exactly that one. -/
theorem C3_search_buffer :
    (∀ (s : EngineState) (needle : String) (m : ChatMessage),
      m ∈ search_buffer s needle ↔
        m ∈ s.buffer ∧
        ∃ pre post : List Char, m.message.data = pre ++ needle.data ++ post) ∧
    (∀ (s : EngineState) (needle : String),
      (search_buffer s needle).Sublist s.buffer) ∧
    search_buffer (engineAppend (mkEngine "v") "u1" "Hello World" 0) "world" = [] ∧
    search_buffer (engineAppend (mkEngine "v") "u1" "Hello World" 0) "World" =
      [{ author := "u1", message := "Hello World", timestamp := 0 }] := by
  refine ⟨?_, ?_, by decide, by decide⟩
  · intro s needle m
    simp [search_buffer, List.mem_filter, hasSubstr_iff]
  · intro s needle
    exact List.filter_sublist _

theorem C3_search_buffer_witness :
    ({ author := "u1", message := "Hello World", timestamp := 0 } : ChatMessage) ∈
      search_buffer (engineAppend (mkEngine "v") "u1" "Hello World" 0) "World" :=
  (C3_search_buffer.1 (engineAppend (mkEngine "v") "u1" "Hello World" 0) "World"
      { author := "u1", message := "Hello World", timestamp := 0 }).mpr
    ⟨by decide, ⟨"Hello ".data, [], by decide⟩⟩

/-! ### Claim C4: exponential backoff and terminal failure -/

/-- C4: from any reachable running loop state, an exception makes attempt
`k+1`: while `k+1 ≤ 3` the loop records the retry in `lastError`, sleeps
`2^((k+1)-1)` seconds and keeps running with the same connection; when the
counter is already at the maximum 3, a further exception sets the final
`lastError` and terminates the loop permanently (every later event leaves
the exited state unchanged); a successful iteration resets the counter
to 0. -/
theorem C4_backoff_retries (s : LoopState) (hreach : LoopReachable s)
    (hrun : s.running = true) :
    (s.attempts + 1 ≤ maxReconnectAttempts →
      loopStep s .fetchErr =
        ({ s with
            attempts := s.attempts + 1
            errorMsg := some ("Connection error, retrying... (" ++
              toString (s.attempts + 1) ++ "/" ++ toString maxReconnectAttempts ++ ")")
            backoff := s.backoff * 2 },
         some (2 ^ (s.attempts + 1 - 1))) ∧
      (loopStep s .fetchErr).1.running = true) ∧
    (s.attempts = maxReconnectAttempts →
      (loopStep s .fetchErr).1.running = false ∧
      (loopStep s .fetchErr).1.errorMsg =
        some ("Connection lost after " ++ toString maxReconnectAttempts ++ " attempts") ∧
      (∀ e : LoopEvent,
        loopStep (loopStep s .fetchErr).1 e = ((loopStep s .fetchErr).1, none))) ∧
    (loopStep s .fetchOk).1.attempts = 0 := by
  obtain ⟨hb, ha⟩ := reachable_inv hreach hrun
  have hm : maxReconnectAttempts = 3 := rfl
  refine ⟨?_, ?_, ?_⟩
  · intro hle
    constructor
    · simp only [loopStep, hrun, if_true, if_pos hle]
      rw [hb]
      simp
    · simp [loopStep, hrun, hle]
  · intro h3
    have hnle : ¬ (s.attempts + 1 ≤ maxReconnectAttempts) := by omega
    refine ⟨by simp [loopStep, hrun, hnle], by simp [loopStep, hrun, hnle], ?_⟩
    intro e
    simp [loopStep, hrun, hnle]
  · simp [loopStep, hrun]

theorem C4_backoff_retries_witness :
    (loopStep (runLoop initLoop [LoopEvent.fetchErr, .fetchErr, .fetchErr])
        .fetchErr).1.running = false ∧
    (loopStep initLoop .fetchErr).2 = some 1 :=
  ⟨((C4_backoff_retries _ ⟨[LoopEvent.fetchErr, .fetchErr, .fetchErr], rfl⟩
      (by decide)).2.1 (by decide)).1,
   by
    have h := ((C4_backoff_retries initLoop ⟨[], rfl⟩ rfl).1 (by decide)).1
    rw [h]
    rfl⟩

/-! ### Claim C7: `stop_buffering` is idempotent and total -/

/-- C7: `stop_buffering` always latches the stop flag; running it twice
equals running it once; its observable result does not depend on whether
releasing the feed connection fails (failures are swallowed); and it is
safe on a freshly constructed engine that was never started. -/
theorem C7_stop_idempotent :
    (∀ (s : EngineState) (j : Bool) (r : Except String Unit),
      (stop_buffering s j r).stopFlag = true) ∧
    (∀ (s : EngineState) (j : Bool) (r r' : Except String Unit),
      stop_buffering (stop_buffering s j r) j r' = stop_buffering s j r) ∧
    (∀ (s : EngineState) (j : Bool) (e : String),
      stop_buffering s j (Except.error e) = stop_buffering s j (Except.ok ())) ∧
    (∀ (v : String) (j : Bool) (r : Except String Unit),
      stop_buffering (mkEngine v) j r = { mkEngine v with stopFlag := true }) := by
  refine ⟨?_, ?_, ?_, ?_⟩
  · intro s j r
    cases r <;> cases j <;> rfl
  · intro s j r r'
    cases r <;> cases r' <;> cases j <;> rfl
  · intro s j e
    cases j <;> rfl
  · intro v j r
    cases r <;> cases j <;> rfl

/-! ### Claim C8: `start_buffering` fails fast, signalling by message -/

/-- C8: when the connection reports the stream not live,
`start_buffering` returns `false`, sets `lastError` to
`Stream is not live` and does not launch the background task; the invalid
identifier and generic connection failures likewise return `false` with
their own messages (never an exception), and those messages are pairwise
distinct from each other. -/
theorem C8_start_fails_fast :
    (∀ s : EngineState,
      (start_buffering s (ConnResult.conn false)).1 = false ∧
      (start_buffering s (ConnResult.conn false)).2.errorMessage =
        some "Stream is not live" ∧
      (start_buffering s (ConnResult.conn false)).2.workerStarted = s.workerStarted ∧
      (start_buffering s (ConnResult.conn false)).2.workerAlive = s.workerAlive) ∧
    (∀ s : EngineState,
      (start_buffering s ConnResult.invalidId).1 = false ∧
      (start_buffering s ConnResult.invalidId).2.errorMessage =
        some "Invalid video ID" ∧
      (start_buffering s ConnResult.invalidId).2.workerStarted = s.workerStarted) ∧
    (∀ (s : EngineState) (m : String),
      (start_buffering s (ConnResult.failure m)).1 = false ∧
      (start_buffering s (ConnResult.failure m)).2.errorMessage =
        some ("Failed to connect: " ++ m) ∧
      (start_buffering s (ConnResult.failure m)).2.workerStarted = s.workerStarted) ∧
    (∀ m : String,
      (("Invalid video ID" : String) == "Failed to connect: " ++ m) = false) ∧
    (∀ m : String,
      (("Stream is not live" : String) == "Failed to connect: " ++ m) = false) := by
  refine ⟨?_, ?_, ?_, ?_, ?_⟩
  · intro s
    exact ⟨rfl, rfl, rfl, rfl⟩
  · intro s
    exact ⟨rfl, rfl, rfl⟩
  · intro s m
    exact ⟨rfl, rfl, rfl⟩
  · intro m
    rw [beq_eq_false_iff_ne]
    intro h
    have hlen := congrArg String.length h
    rw [String.length_append] at hlen
    have h16 : ("Invalid video ID" : String).length = 16 := by decide
    have h19 : ("Failed to connect: " : String).length = 19 := by decide
    omega
  · intro m
    rw [beq_eq_false_iff_ne]
    intro h
    have hlen := congrArg String.length h
    rw [String.length_append] at hlen
    have h18 : ("Stream is not live" : String).length = 18 := by decide
    have h19 : ("Failed to connect: " : String).length = 19 := by decide
    omega

/-! ### Claim C9: `get_buffer_stats` -/

/-- C9: `get_buffer_stats` always reports `messageCount` equal to the
current buffer length and `timeSpanSeconds` equal to the elapsed time
since `firstMessageTime`, reporting 0 whenever no message was ever
captured; on a freshly constructed engine it returns
`{messageCount := 0, timeSpanSeconds := 0}`. -/
theorem C9_stats (s : EngineState) (now : Nat) :
    (get_buffer_stats s now).messageCount = s.buffer.length ∧
    (∀ t : Nat, s.firstMessageTime = some t →
      (get_buffer_stats s now).timeSpanSeconds = now - t) ∧
    (s.firstMessageTime = none →
      (get_buffer_stats s now).timeSpanSeconds = 0) ∧
    (∀ v : String,
      get_buffer_stats (mkEngine v) now =
        { messageCount := 0, timeSpanSeconds := 0 }) := by
  refine ⟨rfl, ?_, ?_, ?_⟩
  · intro t ht
    simp [get_buffer_stats, ht]
  · intro h
    simp [get_buffer_stats, h]
  · intro v
    rfl

theorem C9_stats_witness :
    (get_buffer_stats (mkEngine "v") 7).timeSpanSeconds = 0 :=
  (C9_stats (mkEngine "v") 7).2.2.1 rfl

/-! ### Claim C6: the validator cache -/

/-- C6 as literally stated fails at the empty identifier: with a cache
entry for `""` captured at the current instant (age 0 < 60 seconds),
`validate_livestream` ignores it and returns the `No video ID provided`
result — not the cached result — and, the call being non-cached in effect,
writes nothing back to the cache either (`url_validator.py` lines 70-75
precede both the cache check and the cache store). -/
theorem C6_cache_counterexample :
    validate_livestream (fun _ => FetchOutcome.live)
        [("", ({ valid := true, live := true, error := none }, 5))] 5 "" =
      ({ valid := false, live := false, error := some "No video ID provided" },
       [("", ({ valid := true, live := true, error := none }, 5))], false) ∧
    ({ valid := false, live := false, error := some "No video ID provided" } : VResult) ≠
      { valid := true, live := true, error := none } := by
  exact ⟨rfl, by decide⟩

/-- C6 (amended to non-empty identifiers): for every non-empty identifier,
a cache entry younger than 60 seconds is returned unchanged with no
collaborator invocation; and on every non-cached call — whether the entry
is absent or stale, and whatever the collaborator outcome — the
classified result is written to the cache with the current time. -/
theorem C6_cache_amended (collab : String → FetchOutcome) (cache : VCache)
    (now : Nat) (vid : String) (hne : vid.isEmpty = false) :
    (∀ (r : VResult) (t : Nat), cacheLookup cache vid = some (r, t) →
      now - t < 60 →
      validate_livestream collab cache now vid = (r, cache, false)) ∧
    (cacheLookup cache vid = none →
      validate_livestream collab cache now vid =
        (classifyOutcome (collab vid),
         cacheStore cache vid (classifyOutcome (collab vid), now), true)) ∧
    (∀ (r : VResult) (t : Nat), cacheLookup cache vid = some (r, t) →
      ¬ (now - t < 60) →
      validate_livestream collab cache now vid =
        (classifyOutcome (collab vid),
         cacheStore cache vid (classifyOutcome (collab vid), now), true)) := by
  have hct : cacheTimeout = 60 := rfl
  refine ⟨?_, ?_, ?_⟩
  · intro r t hl hf
    unfold validate_livestream
    rw [if_neg (by simp [hne]), hl]
    dsimp only
    rw [if_pos (by rw [hct]; omega)]
  · intro hl
    unfold validate_livestream
    rw [if_neg (by simp [hne]), hl]
  · intro r t hl hf
    unfold validate_livestream
    rw [if_neg (by simp [hne]), hl]
    dsimp only
    rw [if_neg (by rw [hct]; omega)]

theorem C6_cache_amended_witness :
    validate_livestream (fun _ => FetchOutcome.live)
        [("abc", ({ valid := true, live := false,
                    error := some "Stream is not currently live" }, 0))] 30 "abc" =
      (({ valid := true, live := false,
          error := some "Stream is not currently live" } : VResult),
       [("abc", ({ valid := true, live := false,
                   error := some "Stream is not currently live" }, 0))], false) :=
  (C6_cache_amended (fun _ => FetchOutcome.live) _ 30 "abc" (by decide)).1
    _ 0 (by decide) (by decide)
